import Mathlib

/-
Verification of the KPI/aggregation logic of the marketing-campaign dashboard
(src/app.py) against its natural-language specification.

The embedding models one pandas DataFrame row as a `Row` record and the loaded
dataset as a `List Row` in file order.  pandas/numpy true division of column
sums never raises: a zero denominator silently yields +inf, -inf or nan.  That
arithmetic is modelled by `PyFloat` (an exact rational, or one of the three
non-finite IEEE values) and `pyDiv`.  Python `f"..."` fixed-point formatting is
modelled over exact rationals, with `pyRound` standing for the rounding of the
format specifier.  `df.groupby(k)` with pandas' default `sort=True` lists the
distinct keys in ascending order; Python compares strings by code point, which
`strLe` implements.  `df.copy()` is `copyDf`; assigning a derived column to a
copy builds a new list and leaves the original dataset untouched.
-/

namespace MarketingAnalysis

/-! ### Float results of true division (numpy semantics) -/

/-- The value of a numpy/pandas true division: an exact finite rational, or one
of the non-finite IEEE values that a zero denominator produces silently. -/
inductive PyFloat where
  | fin : ℚ → PyFloat
  | inf : PyFloat
  | ninf : PyFloat
  | nan : PyFloat
deriving DecidableEq

/-- numpy true division `a / b`: exact quotient when `b ≠ 0`; for `b = 0` it
silently yields `inf`, `-inf` or `nan` depending on the sign of `a`, never an
exception. -/
def pyDiv (a b : ℚ) : PyFloat :=
  if b = 0 then
    if 0 < a then PyFloat.inf else if a < 0 then PyFloat.ninf else PyFloat.nan
  else PyFloat.fin (a / b)

/-- Multiplication by the positive literal `100` as applied to a division
result, e.g. `(total_clicks / total_impressions) * 100`. -/
def pyMul100 : PyFloat → PyFloat
  | PyFloat.fin q => PyFloat.fin (q * 100)
  | PyFloat.inf => PyFloat.inf
  | PyFloat.ninf => PyFloat.ninf
  | PyFloat.nan => PyFloat.nan

/-- Whether a `PyFloat` is an ordinary finite number. -/
def PyFloat.finite : PyFloat → Bool
  | PyFloat.fin _ => true
  | _ => false

/-! ### The data model: one spreadsheet row and the loaded dataset -/

/-- A calendar date as parsed by `pd.to_datetime` (time-of-day plays no role in
the dashboard). -/
structure PDate where
  year : ℕ
  month : ℕ
  day : ℕ
deriving DecidableEq

/-- One row of the spreadsheet after `load_data`: the identifier, temporal,
demographic and geographic columns, and the five numeric measures.  Numeric
cells are modelled as exact rationals. -/
structure Row where
  campaign : String
  channel : String
  startDate : PDate
  endDate : PDate
  ageGroup : String
  gender : String
  location : String
  impressions : ℚ
  clicks : ℚ
  conversions : ℚ
  spend : ℚ
  revenue : ℚ
deriving DecidableEq

/-- The column sum `df['Impressions'].sum()`. -/
def sumImpressions (df : List Row) : ℚ := (df.map Row.impressions).sum

/-- The column sum `df['Clicks'].sum()`. -/
def sumClicks (df : List Row) : ℚ := (df.map Row.clicks).sum

/-- The column sum `df['Conversions'].sum()`. -/
def sumConversions (df : List Row) : ℚ := (df.map Row.conversions).sum

/-- The column sum `df['Total_Spend'].sum()`. -/
def sumSpend (df : List Row) : ℚ := (df.map Row.spend).sum

/-- The column sum `df['Revenue_Generated'].sum()`. -/
def sumRevenue (df : List Row) : ℚ := (df.map Row.revenue).sum

/-! ### `calculate_kpis` (src/app.py lines 22-46) -/

/-- The numeric local variables of `calculate_kpis`: the five column totals and
the five derived ratios, before string formatting. -/
structure KPICore where
  total_impressions : ℚ
  total_clicks : ℚ
  total_conversions : ℚ
  total_spend : ℚ
  total_revenue : ℚ
  ctr : PyFloat
  conversion_rate : PyFloat
  cpc : PyFloat
  cpa : PyFloat
  roas : PyFloat
deriving DecidableEq

/-- Lines 23-33 of `calculate_kpis`: sum the five measure columns and derive
the ratios by true division of the totals. -/
def calculate_kpis_core (df : List Row) : KPICore :=
  { total_impressions := sumImpressions df
    total_clicks := sumClicks df
    total_conversions := sumConversions df
    total_spend := sumSpend df
    total_revenue := sumRevenue df
    ctr := pyMul100 (pyDiv (sumClicks df) (sumImpressions df))
    conversion_rate := pyMul100 (pyDiv (sumConversions df) (sumClicks df))
    cpc := pyDiv (sumSpend df) (sumClicks df)
    cpa := pyDiv (sumSpend df) (sumConversions df)
    roas := pyDiv (sumRevenue df) (sumSpend df) }

/-! ### Python fixed-point string formatting -/

/-- Floor of a rational as an integer (`n.fdiv d` is floor division, which
agrees with mathematical floor since denominators are positive). -/
def ratFloor (q : ℚ) : ℤ := Int.fdiv q.num (q.den : ℤ)

/-- Rounding to the nearest integer, as performed by a Python fixed-point
format specifier (modelled with ties rounding up). -/
def pyRound (q : ℚ) : ℤ := ratFloor (q + 1 / 2)

/-- Insert a comma after every three digits of a reversed digit list: the
thousands separator of the `,` format flag. -/
def commaRevAux : ℕ → List Char → List Char
  | _, [] => []
  | n, c :: cs =>
    if n = 0 then ',' :: c :: commaRevAux 2 cs else c :: commaRevAux (n - 1) cs

/-- A natural number rendered with thousands separators (`f"{n:,.0f}"` for a
whole value). -/
def natCommaStr (n : ℕ) : String :=
  String.mk ((commaRevAux 3 (toString n).data.reverse).reverse)

/-- A two-digit decimal field `00`-`99`. -/
def twoDigits (n : ℕ) : String :=
  if n < 10 then "0" ++ toString n else toString n

/-- Formatting `f"{q:,.0f}"`: round to a whole number and add thousands separators. -/
def fmtComma0 (q : ℚ) : String :=
  (if pyRound q < 0 then "-" else "") ++ natCommaStr (pyRound q).natAbs

/-- Formatting `f"{q:.2f}"` (and, with `comma := true`, `f"{q:,.2f}"`): two fixed decimal
places. -/
def fmtFixed2 (comma : Bool) (q : ℚ) : String :=
  (if pyRound (q * 100) < 0 then "-" else "") ++
    (if comma then natCommaStr ((pyRound (q * 100)).natAbs / 100)
     else toString ((pyRound (q * 100)).natAbs / 100)) ++
    "." ++ twoDigits ((pyRound (q * 100)).natAbs % 100)

/-- Formatting `f"{v:.2f}"` on a possibly non-finite float: Python renders the IEEE
specials as `inf`, `-inf` and `nan`. -/
def fmtPyFloat2 (v : PyFloat) : String :=
  match v with
  | PyFloat.fin q => fmtFixed2 false q
  | PyFloat.inf => "inf"
  | PyFloat.ninf => "-inf"
  | PyFloat.nan => "nan"

/-- The dictionary `calculate_kpis` returns: metric label to formatted string
(lines 35-46). -/
structure KPISet where
  totalImpressionsStr : String
  totalClicksStr : String
  totalConversionsStr : String
  totalSpendStr : String
  totalRevenueStr : String
  ctrStr : String
  conversionRateStr : String
  cpcStr : String
  cpaStr : String
  roasStr : String
deriving DecidableEq

/-- The function `calculate_kpis` (lines 22-46): compute the totals and ratios, then format
them for display. -/
def calculate_kpis (df : List Row) : KPISet :=
  { totalImpressionsStr := fmtComma0 (calculate_kpis_core df).total_impressions
    totalClicksStr := fmtComma0 (calculate_kpis_core df).total_clicks
    totalConversionsStr := fmtComma0 (calculate_kpis_core df).total_conversions
    totalSpendStr := "$" ++ fmtFixed2 true (calculate_kpis_core df).total_spend
    totalRevenueStr := "$" ++ fmtFixed2 true (calculate_kpis_core df).total_revenue
    ctrStr := fmtPyFloat2 (calculate_kpis_core df).ctr ++ "%"
    conversionRateStr := fmtPyFloat2 (calculate_kpis_core df).conversion_rate ++ "%"
    cpcStr := "$" ++ fmtPyFloat2 (calculate_kpis_core df).cpc
    cpaStr := "$" ++ fmtPyFloat2 (calculate_kpis_core df).cpa
    roasStr := fmtPyFloat2 (calculate_kpis_core df).roas ++ "x" }

/-! ### String ordering (Python code-point comparison, used by pandas groupby sort) -/

/-- Lexicographic less-or-equal on code-point lists, as Python compares
strings. -/
def strLeB : List Char → List Char → Bool
  | [], _ => true
  | _ :: _, [] => false
  | a :: as, b :: bs =>
    if a.toNat < b.toNat then true
    else if b.toNat < a.toNat then false
    else strLeB as bs

/-- Python string `<=` by code point. -/
def strLe (s t : String) : Bool := strLeB s.data t.data

/-- Year-month order on `(year, month)` pairs: chronological comparison of
calendar-month buckets. -/
def ymLe (a b : ℕ × ℕ) : Prop :=
  a.1 < b.1 ∨ (a.1 = b.1 ∧ a.2 ≤ b.2)

instance : DecidableRel ymLe := fun a b => by unfold ymLe; infer_instance

/-! ### Grouping (pandas `df.groupby(key)` with its default `sort=True`) -/

/-- The distinct values of a column in first-seen order (`reverse ∘ dedup ∘
reverse` keeps the first occurrence of each value). -/
def firstSeen {α : Type} [DecidableEq α] (l : List α) : List α :=
  (l.reverse.dedup).reverse

/-- The group keys a pandas `groupby` produces: the distinct values of the key
column, sorted ascending (pandas' default `sort=True`). -/
def groupKeys {α : Type} (r : α → α → Prop) [DecidableRel r] [DecidableEq α]
    (l : List α) : List α :=
  List.insertionSort r (firstSeen l)

/-! ### The per-tab computations of `main` -/

/-- One row of `channel_metrics` (lines 113-124): the five per-channel sums of
`agg`, and the three KPI columns added afterwards from those sums. -/
structure ChannelRow where
  channel : String
  impressions : ℚ
  clicks : ℚ
  conversions : ℚ
  spend : ℚ
  revenue : ℚ
  ctr : PyFloat
  conversion_rate : PyFloat
  roas : PyFloat
deriving DecidableEq

/-- The table `channel_metrics` (lines 113-124): group by `Marketing_Channel`, sum the
five measures per group, then derive CTR, conversion rate and ROAS from the
grouped sums. -/
def channel_metrics (df : List Row) : List ChannelRow :=
  (groupKeys (fun a b => strLe a b = true) (df.map Row.channel)).map fun k =>
    { channel := k
      impressions := ((df.filter fun r => r.channel = k).map Row.impressions).sum
      clicks := ((df.filter fun r => r.channel = k).map Row.clicks).sum
      conversions := ((df.filter fun r => r.channel = k).map Row.conversions).sum
      spend := ((df.filter fun r => r.channel = k).map Row.spend).sum
      revenue := ((df.filter fun r => r.channel = k).map Row.revenue).sum
      ctr := pyMul100 (pyDiv ((df.filter fun r => r.channel = k).map Row.clicks).sum
        ((df.filter fun r => r.channel = k).map Row.impressions).sum)
      conversion_rate := pyMul100
        (pyDiv ((df.filter fun r => r.channel = k).map Row.conversions).sum
          ((df.filter fun r => r.channel = k).map Row.clicks).sum)
      roas := pyDiv ((df.filter fun r => r.channel = k).map Row.revenue).sum
        ((df.filter fun r => r.channel = k).map Row.spend).sum }

/-- A call `df.copy()`: a fresh dataframe holding the same rows; writes to the copy
never reach the original. -/
def copyDf (df : List Row) : List Row := df.map fun r => r

/-- The table `campaign_metrics` (lines 92-93): copy the dataframe and add a per-row
`Conversion_Rate` column.  No groupby is performed on this tab. -/
def campaign_metrics (df : List Row) : List (Row × PyFloat) :=
  (copyDf df).map fun r => (r, pyMul100 (pyDiv r.conversions r.clicks))

/-- One row of `age_metrics` (lines 157-160): per age group, the sums of
`Conversions` and `Revenue_Generated` only. -/
structure AgeRow where
  ageGroup : String
  conversions : ℚ
  revenue : ℚ
deriving DecidableEq

/-- The table `age_metrics` (lines 157-160). -/
def age_metrics (df : List Row) : List AgeRow :=
  (groupKeys (fun a b => strLe a b = true) (df.map Row.ageGroup)).map fun k =>
    { ageGroup := k
      conversions := ((df.filter fun r => r.ageGroup = k).map Row.conversions).sum
      revenue := ((df.filter fun r => r.ageGroup = k).map Row.revenue).sum }

/-- One row of `gender_metrics` (lines 172-175): per gender, the sums of
`Conversions` and `Revenue_Generated` only. -/
structure GenderRow where
  gender : String
  conversions : ℚ
  revenue : ℚ
deriving DecidableEq

/-- The table `gender_metrics` (lines 172-175). -/
def gender_metrics (df : List Row) : List GenderRow :=
  (groupKeys (fun a b => strLe a b = true) (df.map Row.gender)).map fun k =>
    { gender := k
      conversions := ((df.filter fun r => r.gender = k).map Row.conversions).sum
      revenue := ((df.filter fun r => r.gender = k).map Row.revenue).sum }

/-- One row of `location_metrics` (lines 187-191): per location, the sums of
`Conversions`, `Revenue_Generated` and `Total_Spend` only. -/
structure LocationRow where
  location : String
  conversions : ℚ
  revenue : ℚ
  spend : ℚ
deriving DecidableEq

/-- The table `location_metrics` (lines 187-191). -/
def location_metrics (df : List Row) : List LocationRow :=
  (groupKeys (fun a b => strLe a b = true) (df.map Row.location)).map fun k =>
    { location := k
      conversions := ((df.filter fun r => r.location = k).map Row.conversions).sum
      revenue := ((df.filter fun r => r.location = k).map Row.revenue).sum
      spend := ((df.filter fun r => r.location = k).map Row.spend).sum }

/-- The bucket `Start_Date.dt.to_period('M')`: truncate a record's start date to
year-month granularity. -/
def monthOf (r : Row) : ℕ × ℕ := (r.startDate.year, r.startDate.month)

/-- The table `df_time` (lines 208-209): copy the dataframe and add the `Month` column
derived from `Start_Date`. -/
def df_time (df : List Row) : List (Row × (ℕ × ℕ)) :=
  (copyDf df).map fun r => (r, monthOf r)

/-- One row of `time_metrics` (lines 211-216): per calendar month, the sums of
`Impressions`, `Clicks`, `Conversions` and `Revenue_Generated` (no spend). -/
structure TimeRow where
  month : ℕ × ℕ
  impressions : ℚ
  clicks : ℚ
  conversions : ℚ
  revenue : ℚ
deriving DecidableEq

/-- The table `time_metrics` (lines 211-216): group `df_time` by the `Month` column;
pandas sorts the `Period` keys, i.e. chronologically ascending. -/
def time_metrics (df : List Row) : List TimeRow :=
  (groupKeys ymLe ((df_time df).map Prod.snd)).map fun m =>
    { month := m
      impressions :=
        (((df_time df).filter fun p => p.snd = m).map fun p => p.fst.impressions).sum
      clicks :=
        (((df_time df).filter fun p => p.snd = m).map fun p => p.fst.clicks).sum
      conversions :=
        (((df_time df).filter fun p => p.snd = m).map fun p => p.fst.conversions).sum
      revenue :=
        (((df_time df).filter fun p => p.snd = m).map fun p => p.fst.revenue).sum }

/-! ### Aggregation calls as dataset-state transformers

Each dashboard computation reads the loaded dataset and returns its result; the
second component below is the dataset object after the call.  `calculate_kpis`
and the `groupby` pipelines only read `df`; the campaign and time tabs write
their derived columns to `df.copy()`, so the original is returned unchanged. -/

/-- A `calculate_kpis(df)` call: result and the dataset afterwards. -/
def calculate_kpisRun (df : List Row) : KPISet × List Row :=
  (calculate_kpis df, df)

/-- The channel tab's computation: result and the dataset afterwards. -/
def channel_metricsRun (df : List Row) : List ChannelRow × List Row :=
  (channel_metrics df, df)

/-- The campaign tab's computation: the derived column is written to the copy,
and the original dataset is returned as it was. -/
def campaign_metricsRun (df : List Row) : List (Row × PyFloat) × List Row :=
  (campaign_metrics df, df)

/-- The demographics tab's computations: results and the dataset afterwards. -/
def demographics_metricsRun (df : List Row) :
    (List AgeRow × List GenderRow × List LocationRow) × List Row :=
  ((age_metrics df, gender_metrics df, location_metrics df), df)

/-- The time tab's computation: the `Month` column is written to the copy, and
the original dataset is returned as it was. -/
def time_metricsRun (df : List Row) : List TimeRow × List Row :=
  (time_metrics df, df)

/-- One aggregation request, as the dashboard issues them. -/
inductive AggCall where
  | kpis : AggCall
  | campaignTab : AggCall
  | channelTab : AggCall
  | demographicsTab : AggCall
  | timeTab : AggCall
deriving DecidableEq

/-- The dataset state after serving one aggregation request. -/
def runCallPost : AggCall → List Row → List Row
  | AggCall.kpis, df => (calculate_kpisRun df).2
  | AggCall.campaignTab, df => (campaign_metricsRun df).2
  | AggCall.channelTab, df => (channel_metricsRun df).2
  | AggCall.demographicsTab, df => (demographics_metricsRun df).2
  | AggCall.timeTab, df => (time_metricsRun df).2

/-- The dataset state after serving a sequence of aggregation requests. -/
def runCallsPost (calls : List AggCall) (df : List Row) : List Row :=
  calls.foldl (fun d c => runCallPost c d) df

/-! ### Statement-side definition for the campaign-grouping comparison -/

/-- The per-campaign grouped conversion rate demanded by the spec sentence
"For channel and campaign groupings, additionally derives CTR, conversion
rate, and ROAS per group": group by campaign name and derive the rate from
the group's aggregated sums.  Stated for comparison with the code's
`campaign_metrics`, which performs no grouping. -/
def campaignGroupedRateSpec (df : List Row) : List (String × PyFloat) :=
  (groupKeys (fun a b => strLe a b = true) (df.map Row.campaign)).map fun k =>
    (k, pyMul100
      (pyDiv ((df.filter fun r => r.campaign = k).map Row.conversions).sum
        ((df.filter fun r => r.campaign = k).map Row.clicks).sum))

/-! ### Concrete datasets used by the closed statements -/

/-- The spec's end-to-end scenario: Email 1000/50/5/100/500 and Social
2000/100/20/300/1800. -/
def dfC2 : List Row :=
  [{ campaign := "Alpha", channel := "Email", startDate := ⟨2024, 3, 15⟩,
     endDate := ⟨2024, 3, 20⟩, ageGroup := "18-24", gender := "F",
     location := "NY", impressions := 1000, clicks := 50, conversions := 5,
     spend := 100, revenue := 500 },
   { campaign := "Beta", channel := "Social", startDate := ⟨2024, 4, 2⟩,
     endDate := ⟨2024, 4, 9⟩, ageGroup := "25-34", gender := "M",
     location := "LA", impressions := 2000, clicks := 100, conversions := 20,
     spend := 300, revenue := 1800 }]

/-- A dataset with positive impressions and zero clicks overall. -/
def dfC3 : List Row :=
  [{ campaign := "Alpha", channel := "Email", startDate := ⟨2024, 1, 1⟩,
     endDate := ⟨2024, 1, 5⟩, ageGroup := "18-24", gender := "F",
     location := "NY", impressions := 10, clicks := 0, conversions := 0,
     spend := 5, revenue := 0 }]

/-- Two rows of one campaign whose per-row conversion rates (10% and 90%)
both differ from the grouped rate (37/50 = 74%). -/
def dfC6 : List Row :=
  [{ campaign := "A", channel := "Email", startDate := ⟨2024, 1, 1⟩,
     endDate := ⟨2024, 1, 5⟩, ageGroup := "18-24", gender := "F",
     location := "NY", impressions := 100, clicks := 10, conversions := 1,
     spend := 10, revenue := 20 },
   { campaign := "A", channel := "Email", startDate := ⟨2024, 2, 1⟩,
     endDate := ⟨2024, 2, 5⟩, ageGroup := "18-24", gender := "F",
     location := "NY", impressions := 200, clicks := 40, conversions := 36,
     spend := 30, revenue := 60 }]

/-- Channels appear in the order B, A: first-seen order differs from sorted
order. -/
def dfC7 : List Row :=
  [{ campaign := "Alpha", channel := "B", startDate := ⟨2024, 1, 1⟩,
     endDate := ⟨2024, 1, 5⟩, ageGroup := "18-24", gender := "F",
     location := "NY", impressions := 10, clicks := 1, conversions := 1,
     spend := 1, revenue := 1 },
   { campaign := "Beta", channel := "A", startDate := ⟨2024, 1, 2⟩,
     endDate := ⟨2024, 1, 6⟩, ageGroup := "18-24", gender := "F",
     location := "NY", impressions := 20, clicks := 2, conversions := 2,
     spend := 2, revenue := 2 }]

/-- One row with spend 100. -/
def dfC8a : List Row :=
  [{ campaign := "Alpha", channel := "Email", startDate := ⟨2024, 1, 1⟩,
     endDate := ⟨2024, 1, 5⟩, ageGroup := "18-24", gender := "F",
     location := "NY", impressions := 10, clicks := 5, conversions := 2,
     spend := 100, revenue := 50 }]

/-- The same row with spend 200 instead. -/
def dfC8b : List Row :=
  [{ campaign := "Alpha", channel := "Email", startDate := ⟨2024, 1, 1⟩,
     endDate := ⟨2024, 1, 5⟩, ageGroup := "18-24", gender := "F",
     location := "NY", impressions := 10, clicks := 5, conversions := 2,
     spend := 200, revenue := 50 }]

/-! ### Order facts about the key comparisons -/

lemma strLeB_cons (a b : Char) (as bs : List Char) :
    strLeB (a :: as) (b :: bs) = true ↔
      a.toNat < b.toNat ∨ (a.toNat = b.toNat ∧ strLeB as bs = true) := by
  simp only [strLeB]
  by_cases h1 : a.toNat < b.toNat
  · simp [h1]
  · by_cases h2 : b.toNat < a.toNat
    · simp [h1, h2]; omega
    · have h3 : ¬ a.toNat = b.toNat → False := by omega
      simp [h1, h2]; omega

lemma strLeB_total (as bs : List Char) : strLeB as bs = true ∨ strLeB bs as = true := by
  induction as generalizing bs with
  | nil => left; rfl
  | cons a as ih =>
    cases bs with
    | nil => right; rfl
    | cons b bs =>
      rw [strLeB_cons, strLeB_cons]
      rcases Nat.lt_trichotomy a.toNat b.toNat with h | h | h
      · left; left; exact h
      · rcases ih bs with h2 | h2
        · left; right; exact ⟨h, h2⟩
        · right; right; exact ⟨h.symm, h2⟩
      · right; left; exact h

lemma strLeB_trans (as bs cs : List Char) (h1 : strLeB as bs = true)
    (h2 : strLeB bs cs = true) : strLeB as cs = true := by
  induction as generalizing bs cs with
  | nil => rfl
  | cons a as ih =>
    cases bs with
    | nil => simp [strLeB] at h1
    | cons b bs =>
      cases cs with
      | nil => simp [strLeB] at h2
      | cons c cs =>
        rw [strLeB_cons] at h1 h2 ⊢
        rcases h1 with h1 | ⟨e1, r1⟩
        · rcases h2 with h2 | ⟨e2, r2⟩
          · left; omega
          · left; omega
        · rcases h2 with h2 | ⟨e2, r2⟩
          · left; omega
          · right; exact ⟨by omega, ih bs cs r1 r2⟩

instance : IsTotal String (fun a b => strLe a b = true) :=
  ⟨fun a b => strLeB_total a.data b.data⟩

instance : IsTrans String (fun a b => strLe a b = true) :=
  ⟨fun _ _ _ h1 h2 => strLeB_trans _ _ _ h1 h2⟩

instance : IsTotal (ℕ × ℕ) ymLe := ⟨fun a b => by unfold ymLe; omega⟩

instance : IsTrans (ℕ × ℕ) ymLe := ⟨fun a b c h1 h2 => by
  unfold ymLe at h1 h2 ⊢; omega⟩

/-! ### Facts about `firstSeen` and `groupKeys` -/

lemma firstSeen_nodup {α : Type} [DecidableEq α] (l : List α) :
    (firstSeen l).Nodup := by
  simp [firstSeen, List.nodup_reverse, List.nodup_dedup]

lemma mem_firstSeen {α : Type} [DecidableEq α] {a : α} {l : List α} :
    a ∈ firstSeen l ↔ a ∈ l := by
  simp [firstSeen]

lemma groupKeys_perm_firstSeen {α : Type} (r : α → α → Prop) [DecidableRel r]
    [DecidableEq α] (l : List α) : List.Perm (groupKeys r l) (firstSeen l) :=
  List.perm_insertionSort r (firstSeen l)

lemma groupKeys_nodup {α : Type} (r : α → α → Prop) [DecidableRel r]
    [DecidableEq α] (l : List α) : (groupKeys r l).Nodup :=
  ((groupKeys_perm_firstSeen r l).nodup_iff).mpr (firstSeen_nodup l)

lemma mem_groupKeys {α : Type} {r : α → α → Prop} [DecidableRel r]
    [DecidableEq α] {a : α} {l : List α} : a ∈ groupKeys r l ↔ a ∈ l :=
  ((groupKeys_perm_firstSeen r l).mem_iff).trans mem_firstSeen

lemma groupKeys_sorted {α : Type} (r : α → α → Prop) [DecidableRel r]
    [DecidableEq α] [IsTotal α r] [IsTrans α r] (l : List α) :
    List.Sorted r (groupKeys r l) :=
  List.sorted_insertionSort r (firstSeen l)

/-! ### Sums over a partition by group key -/

lemma sum_filter_add_sum_filter_not {β : Type} (f : β → ℚ) (p : β → Bool)
    (l : List β) :
    ((l.filter p).map f).sum + ((l.filter fun b => !(p b)).map f).sum
      = (l.map f).sum := by
  induction l with
  | nil => simp
  | cons a t ih =>
    by_cases h : p a
    · simp [List.filter_cons, h]
      linarith [ih]
    · simp [List.filter_cons, h]
      linarith [ih]

lemma sum_map_partition {α β : Type} [DecidableEq α] (key : β → α) (f : β → ℚ) :
    ∀ ks : List α, ks.Nodup → ∀ l : List β, (∀ b ∈ l, key b ∈ ks) →
      (ks.map fun k => ((l.filter fun b => key b = k).map f).sum).sum
        = (l.map f).sum := by
  intro ks
  induction ks with
  | nil =>
    intro _ l hcov
    have hl : l = [] := by
      cases l with
      | nil => rfl
      | cons b t => exact absurd (hcov b (by simp)) (by simp)
    subst hl; simp
  | cons k ks ih =>
    intro hnd l hcov
    have hkn : k ∉ ks := (List.nodup_cons.mp hnd).1
    have hnd2 : ks.Nodup := (List.nodup_cons.mp hnd).2
    have htail : ∀ k2 ∈ ks,
        ((l.filter fun b => !(decide (key b = k))).filter fun b => key b = k2)
          = l.filter fun b => key b = k2 := by
      intro k2 hk2
      have hk2k : ¬ k2 = k := fun e => hkn (e ▸ hk2)
      rw [List.filter_filter]
      apply List.filter_congr
      intro b _
      by_cases hb : key b = k2
      · simp [hb, hk2k]
      · simp [hb]
    have hmc : (ks.map fun k2 =>
          ((l.filter fun b => key b = k2).map f).sum).sum
        = (ks.map fun k2 =>
          (((l.filter fun b => !(decide (key b = k))).filter
            fun b => key b = k2).map f).sum).sum := by
      apply congrArg
      apply List.map_congr_left
      intro k2 hk2
      rw [htail k2 hk2]
    have hcov2 : ∀ b ∈ l.filter fun b => !(decide (key b = k)), key b ∈ ks := by
      intro b hb
      rcases List.mem_filter.mp hb with ⟨hbl, hbk⟩
      have : ¬ key b = k := by simpa using hbk
      rcases List.mem_cons.mp (hcov b hbl) with h | h
      · exact absurd h this
      · exact h
    have hrec := ih hnd2 (l.filter fun b => !(decide (key b = k))) hcov2
    have hsplit := sum_filter_add_sum_filter_not f (fun b => decide (key b = k)) l
    simp only [List.map_cons, List.sum_cons]
    rw [hmc, hrec]
    linarith [hsplit]

/-- Summing a measure over a list via `foldl` from `0` equals the sum of the
mapped column. -/
lemma foldl_add_eq_sum {β : Type} (f : β → ℚ) (l : List β) :
    l.foldl (fun a b => a + f b) 0 = (l.map f).sum := by
  suffices h : ∀ init : ℚ, l.foldl (fun a b => a + f b) init = init + (l.map f).sum by
    simpa using h 0
  induction l with
  | nil => intro init; simp
  | cons b t ih =>
    intro init
    simp only [List.foldl_cons, List.map_cons, List.sum_cons, ih]
    ring

/-- Copying yields the same rows. -/
lemma copyDf_eq (df : List Row) : copyDf df = df := by
  simp [copyDf]

/-- Filtering a mapped list by a predicate on the image. -/
lemma filter_map_eq {β γ : Type} (g : β → γ) (p : γ → Bool) (l : List β) :
    (l.map g).filter p = (l.filter fun b => p (g b)).map g := by
  induction l with
  | nil => rfl
  | cons b t ih =>
    by_cases h : p (g b)
    · simp [List.filter_cons, h, ih]
    · simp [List.filter_cons, h, ih]

/-! ### Division and finiteness -/

lemma pyDiv_zero_not_finite (a : ℚ) : (pyDiv a 0).finite = false := by
  unfold pyDiv
  rw [if_pos rfl]
  split_ifs <;> rfl

lemma pyMul100_finite (v : PyFloat) : (pyMul100 v).finite = v.finite := by
  cases v <;> rfl

/-! ### The group-key column of each grouped view -/

/-- Mapping a projection over built records recovers the key list. -/
lemma map_proj_build {α γ : Type} (g : α → γ) (pr : γ → α)
    (hp : ∀ a, pr (g a) = a) (l : List α) : (l.map g).map pr = l := by
  rw [List.map_map]
  have h2 : ∀ a ∈ l, (pr ∘ g) a = id a := fun a _ => hp a
  rw [List.map_congr_left h2, List.map_id]

lemma channel_metrics_keys (df : List Row) :
    (channel_metrics df).map ChannelRow.channel
      = groupKeys (fun a b => strLe a b = true) (df.map Row.channel) := by
  rw [channel_metrics]
  exact map_proj_build _ _ (fun k => rfl) _

lemma age_metrics_keys (df : List Row) :
    (age_metrics df).map AgeRow.ageGroup
      = groupKeys (fun a b => strLe a b = true) (df.map Row.ageGroup) := by
  rw [age_metrics]
  exact map_proj_build _ _ (fun k => rfl) _

lemma gender_metrics_keys (df : List Row) :
    (gender_metrics df).map GenderRow.gender
      = groupKeys (fun a b => strLe a b = true) (df.map Row.gender) := by
  rw [gender_metrics]
  exact map_proj_build _ _ (fun k => rfl) _

lemma location_metrics_keys (df : List Row) :
    (location_metrics df).map LocationRow.location
      = groupKeys (fun a b => strLe a b = true) (df.map Row.location) := by
  rw [location_metrics]
  exact map_proj_build _ _ (fun k => rfl) _

lemma df_time_eq (df : List Row) :
    df_time df = df.map fun r => (r, monthOf r) := by
  rw [df_time, copyDf_eq]

lemma df_time_snd (df : List Row) :
    (df_time df).map Prod.snd = df.map monthOf := by
  rw [df_time_eq, List.map_map]
  exact List.map_congr_left fun r _ => rfl

lemma time_metrics_keys (df : List Row) :
    (time_metrics df).map TimeRow.month = groupKeys ymLe (df.map monthOf) := by
  have h1 : (time_metrics df).map TimeRow.month
      = groupKeys ymLe ((df_time df).map Prod.snd) := by
    rw [time_metrics]
    exact map_proj_build _ _ (fun m => rfl) _
  rw [h1, df_time_snd]

/-- Each filtered `df_time` group projects to the filtered dataset. -/
lemma df_time_filter (df : List Row) (m : ℕ × ℕ) :
    (df_time df).filter (fun p => p.snd = m)
      = (df.filter fun r => monthOf r = m).map fun r => (r, monthOf r) := by
  rw [df_time_eq, filter_map_eq]

/-- The four per-month sums of `time_metrics`, phrased over the original
dataset. -/
lemma time_metrics_sums (df : List Row) :
    ∀ t ∈ time_metrics df,
      t.impressions
          = ((df.filter fun r => monthOf r = t.month).map Row.impressions).sum ∧
      t.clicks = ((df.filter fun r => monthOf r = t.month).map Row.clicks).sum ∧
      t.conversions
          = ((df.filter fun r => monthOf r = t.month).map Row.conversions).sum ∧
      t.revenue = ((df.filter fun r => monthOf r = t.month).map Row.revenue).sum := by
  intro t ht
  rcases List.mem_map.mp ht with ⟨m, hm, rfl⟩
  refine ⟨?_, ?_, ?_, ?_⟩ <;>
    (simp only [df_time_filter, List.map_map]
     exact congrArg List.sum (List.map_congr_left fun r _ => rfl))

/-! ### Fixed-point formatting at evaluated inputs -/

/-- Formatting `f"{q:.2f}"` once the scaled rounding is known to be the non-negative
integer `n`. -/
lemma fmtFixed2_eval (q : ℚ) (n : ℕ) (h : pyRound (q * 100) = (n : ℤ)) :
    fmtFixed2 false q = toString (n / 100) ++ "." ++ twoDigits (n % 100) := by
  rw [fmtFixed2, h]
  rw [if_neg (by omega), if_neg (by simp)]
  simp [Int.natAbs_ofNat]

/-! ### The claims -/

/-- C1: `calculate_kpis` sums each of the five base measures, so each total
equals the arithmetic sum of the respective column across all rows, and it
derives CTR, conversion rate, CPC, CPA and ROAS from those totals by the
stated formulas. -/
theorem kpis_totals_are_column_sums (df : List Row) :
    (calculate_kpis_core df).total_impressions
        = df.foldl (fun a r => a + r.impressions) 0 ∧
    (calculate_kpis_core df).total_clicks
        = df.foldl (fun a r => a + r.clicks) 0 ∧
    (calculate_kpis_core df).total_conversions
        = df.foldl (fun a r => a + r.conversions) 0 ∧
    (calculate_kpis_core df).total_spend
        = df.foldl (fun a r => a + r.spend) 0 ∧
    (calculate_kpis_core df).total_revenue
        = df.foldl (fun a r => a + r.revenue) 0 ∧
    (calculate_kpis_core df).ctr
        = pyMul100 (pyDiv (calculate_kpis_core df).total_clicks
            (calculate_kpis_core df).total_impressions) ∧
    (calculate_kpis_core df).conversion_rate
        = pyMul100 (pyDiv (calculate_kpis_core df).total_conversions
            (calculate_kpis_core df).total_clicks) ∧
    (calculate_kpis_core df).cpc
        = pyDiv (calculate_kpis_core df).total_spend
            (calculate_kpis_core df).total_clicks ∧
    (calculate_kpis_core df).cpa
        = pyDiv (calculate_kpis_core df).total_spend
            (calculate_kpis_core df).total_conversions ∧
    (calculate_kpis_core df).roas
        = pyDiv (calculate_kpis_core df).total_revenue
            (calculate_kpis_core df).total_spend := by
  refine ⟨?_, ?_, ?_, ?_, ?_, rfl, rfl, rfl, rfl, rfl⟩
  · exact (foldl_add_eq_sum Row.impressions df).symm
  · exact (foldl_add_eq_sum Row.clicks df).symm
  · exact (foldl_add_eq_sum Row.conversions df).symm
  · exact (foldl_add_eq_sum Row.spend df).symm
  · exact (foldl_add_eq_sum Row.revenue df).symm

/-- C3: on a dataset whose total clicks are zero (with positive total
impressions), `calculate_kpis` still computes — division is total in the
embedding, matching numpy's silent behaviour — and the zero-denominator
ratios, conversion rate and CPC, come out as non-finite values (inf, -inf or
nan), never as a raised error. -/
theorem zero_clicks_ratios_not_finite (df : List Row)
    (hclicks : (calculate_kpis_core df).total_clicks = 0)
    (himp : 0 < (calculate_kpis_core df).total_impressions) :
    (calculate_kpis_core df).conversion_rate.finite = false ∧
    (calculate_kpis_core df).cpc.finite = false := by
  have hc : sumClicks df = 0 := hclicks
  constructor
  · show (pyMul100 (pyDiv (sumConversions df) (sumClicks df))).finite = false
    rw [hc, pyMul100_finite, pyDiv_zero_not_finite]
  · show (pyDiv (sumSpend df) (sumClicks df)).finite = false
    rw [hc, pyDiv_zero_not_finite]

/-- Witness for C3: the one-row dataset with 10 impressions and 0 clicks. -/
theorem zero_clicks_ratios_not_finite_witness :
    (calculate_kpis_core dfC3).conversion_rate.finite = false ∧
    (calculate_kpis_core dfC3).cpc.finite = false :=
  zero_clicks_ratios_not_finite dfC3
    (by norm_num [calculate_kpis_core, sumClicks, dfC3])
    (by norm_num [calculate_kpis_core, sumImpressions, dfC3])

/-- C4: for every dataset and every base measure, the per-channel group sums
of `channel_metrics` add up to the corresponding global total of
`calculate_kpis` — the groups partition the dataset. -/
theorem channel_group_sums_partition_global_totals (df : List Row) :
    ((channel_metrics df).map ChannelRow.impressions).sum
        = (calculate_kpis_core df).total_impressions ∧
    ((channel_metrics df).map ChannelRow.clicks).sum
        = (calculate_kpis_core df).total_clicks ∧
    ((channel_metrics df).map ChannelRow.conversions).sum
        = (calculate_kpis_core df).total_conversions ∧
    ((channel_metrics df).map ChannelRow.spend).sum
        = (calculate_kpis_core df).total_spend ∧
    ((channel_metrics df).map ChannelRow.revenue).sum
        = (calculate_kpis_core df).total_revenue := by
  have hcov : ∀ r ∈ df,
      Row.channel r ∈ groupKeys (fun a b => strLe a b = true) (df.map Row.channel) :=
    fun r hr => mem_groupKeys.mpr (List.mem_map_of_mem Row.channel hr)
  have key : ∀ f : Row → ℚ,
      ((groupKeys (fun a b => strLe a b = true) (df.map Row.channel)).map
        (fun k => ((df.filter fun r => r.channel = k).map f).sum)).sum
        = (df.map f).sum := by
    intro f
    exact sum_map_partition Row.channel f _ (groupKeys_nodup _ _) df hcov
  refine ⟨?_, ?_, ?_, ?_, ?_⟩
  · show ((channel_metrics df).map ChannelRow.impressions).sum = (df.map Row.impressions).sum
    rw [channel_metrics, List.map_map]
    exact key Row.impressions
  · show ((channel_metrics df).map ChannelRow.clicks).sum = (df.map Row.clicks).sum
    rw [channel_metrics, List.map_map]
    exact key Row.clicks
  · show ((channel_metrics df).map ChannelRow.conversions).sum = (df.map Row.conversions).sum
    rw [channel_metrics, List.map_map]
    exact key Row.conversions
  · show ((channel_metrics df).map ChannelRow.spend).sum = (df.map Row.spend).sum
    rw [channel_metrics, List.map_map]
    exact key Row.spend
  · show ((channel_metrics df).map ChannelRow.revenue).sum = (df.map Row.revenue).sum
    rw [channel_metrics, List.map_map]
    exact key Row.revenue

/-- C5: the calendar-month grouping buckets each record by the year-month
truncation of its start date, merges all records of one calendar month into a
single bucket (the bucket list has no duplicates and covers every record), and
lists the buckets chronologically ascending. -/
theorem time_metrics_month_bucketing (df : List Row) :
    List.Sorted ymLe ((time_metrics df).map TimeRow.month) ∧
    ((time_metrics df).map TimeRow.month).Nodup ∧
    (∀ r ∈ df, monthOf r ∈ (time_metrics df).map TimeRow.month) ∧
    (∀ t ∈ time_metrics df,
      t.impressions
          = ((df.filter fun r => monthOf r = t.month).map Row.impressions).sum ∧
      t.clicks = ((df.filter fun r => monthOf r = t.month).map Row.clicks).sum ∧
      t.conversions
          = ((df.filter fun r => monthOf r = t.month).map Row.conversions).sum ∧
      t.revenue
          = ((df.filter fun r => monthOf r = t.month).map Row.revenue).sum) := by
  refine ⟨?_, ?_, ?_, time_metrics_sums df⟩
  · rw [time_metrics_keys]
    exact groupKeys_sorted ymLe _
  · rw [time_metrics_keys]
    exact groupKeys_nodup ymLe _
  · intro r hr
    rw [time_metrics_keys]
    exact mem_groupKeys.mpr (List.mem_map_of_mem monthOf hr)

/-- C6 (amended): the channel grouping derives per-group CTR, conversion rate
and ROAS from the group's aggregated sums with the global formulas; the
campaign tab performs no grouping and derives only a per-record conversion
rate (same formula applied row-wise), with no campaign CTR or ROAS column. -/
theorem channel_group_ratios_campaign_row_rate (df : List Row) :
    (∀ c ∈ channel_metrics df,
      c.ctr = pyMul100 (pyDiv c.clicks c.impressions) ∧
      c.conversion_rate = pyMul100 (pyDiv c.conversions c.clicks) ∧
      c.roas = pyDiv c.revenue c.spend) ∧
    campaign_metrics df
      = df.map fun r => (r, pyMul100 (pyDiv r.conversions r.clicks)) := by
  constructor
  · intro c hc
    rcases List.mem_map.mp hc with ⟨k, hk, rfl⟩
    exact ⟨rfl, rfl, rfl⟩
  · rw [campaign_metrics, copyDf_eq]

/-- C7 (amended): the channel, age, gender and location groupings list the
distinct group values sorted ascending by key (pandas' default `sort=True`),
without duplicates, and exactly the values occurring in the dataset — not in
first-seen order.  (The campaign view performs no grouping at all.) -/
theorem grouped_keys_sorted_ascending (df : List Row) :
    (List.Sorted (fun a b => strLe a b = true)
        ((channel_metrics df).map ChannelRow.channel) ∧
      ((channel_metrics df).map ChannelRow.channel).Nodup ∧
      (∀ s, s ∈ (channel_metrics df).map ChannelRow.channel
        ↔ s ∈ df.map Row.channel)) ∧
    (List.Sorted (fun a b => strLe a b = true)
        ((age_metrics df).map AgeRow.ageGroup) ∧
      ((age_metrics df).map AgeRow.ageGroup).Nodup ∧
      (∀ s, s ∈ (age_metrics df).map AgeRow.ageGroup
        ↔ s ∈ df.map Row.ageGroup)) ∧
    (List.Sorted (fun a b => strLe a b = true)
        ((gender_metrics df).map GenderRow.gender) ∧
      ((gender_metrics df).map GenderRow.gender).Nodup ∧
      (∀ s, s ∈ (gender_metrics df).map GenderRow.gender
        ↔ s ∈ df.map Row.gender)) ∧
    (List.Sorted (fun a b => strLe a b = true)
        ((location_metrics df).map LocationRow.location) ∧
      ((location_metrics df).map LocationRow.location).Nodup ∧
      (∀ s, s ∈ (location_metrics df).map LocationRow.location
        ↔ s ∈ df.map Row.location)) := by
  rw [channel_metrics_keys, age_metrics_keys, gender_metrics_keys,
    location_metrics_keys]
  exact ⟨⟨groupKeys_sorted _ _, groupKeys_nodup _ _, fun s => mem_groupKeys⟩,
    ⟨groupKeys_sorted _ _, groupKeys_nodup _ _, fun s => mem_groupKeys⟩,
    ⟨groupKeys_sorted _ _, groupKeys_nodup _ _, fun s => mem_groupKeys⟩,
    ⟨groupKeys_sorted _ _, groupKeys_nodup _ _, fun s => mem_groupKeys⟩⟩

/-- C8 (amended): each grouped view sums, per distinct key value and restricted
to the records carrying it, exactly the measures it aggregates: all five for
the channel grouping; conversions and revenue for age and gender; conversions,
revenue and spend for location; impressions, clicks, conversions and revenue
for the calendar-month grouping.  (The campaign tab performs no grouped
aggregation.) -/
theorem grouped_views_summed_measures (df : List Row) :
    (∀ c ∈ channel_metrics df,
      c.impressions = ((df.filter fun r => r.channel = c.channel).map Row.impressions).sum ∧
      c.clicks = ((df.filter fun r => r.channel = c.channel).map Row.clicks).sum ∧
      c.conversions = ((df.filter fun r => r.channel = c.channel).map Row.conversions).sum ∧
      c.spend = ((df.filter fun r => r.channel = c.channel).map Row.spend).sum ∧
      c.revenue = ((df.filter fun r => r.channel = c.channel).map Row.revenue).sum) ∧
    (∀ a ∈ age_metrics df,
      a.conversions = ((df.filter fun r => r.ageGroup = a.ageGroup).map Row.conversions).sum ∧
      a.revenue = ((df.filter fun r => r.ageGroup = a.ageGroup).map Row.revenue).sum) ∧
    (∀ g ∈ gender_metrics df,
      g.conversions = ((df.filter fun r => r.gender = g.gender).map Row.conversions).sum ∧
      g.revenue = ((df.filter fun r => r.gender = g.gender).map Row.revenue).sum) ∧
    (∀ l ∈ location_metrics df,
      l.conversions = ((df.filter fun r => r.location = l.location).map Row.conversions).sum ∧
      l.revenue = ((df.filter fun r => r.location = l.location).map Row.revenue).sum ∧
      l.spend = ((df.filter fun r => r.location = l.location).map Row.spend).sum) ∧
    (∀ t ∈ time_metrics df,
      t.impressions = ((df.filter fun r => monthOf r = t.month).map Row.impressions).sum ∧
      t.clicks = ((df.filter fun r => monthOf r = t.month).map Row.clicks).sum ∧
      t.conversions = ((df.filter fun r => monthOf r = t.month).map Row.conversions).sum ∧
      t.revenue = ((df.filter fun r => monthOf r = t.month).map Row.revenue).sum) := by
  refine ⟨?_, ?_, ?_, ?_, time_metrics_sums df⟩
  · intro c hc
    rcases List.mem_map.mp hc with ⟨k, hk, rfl⟩
    exact ⟨rfl, rfl, rfl, rfl, rfl⟩
  · intro a ha
    rcases List.mem_map.mp ha with ⟨k, hk, rfl⟩
    exact ⟨rfl, rfl⟩
  · intro g hg
    rcases List.mem_map.mp hg with ⟨k, hk, rfl⟩
    exact ⟨rfl, rfl⟩
  · intro l hl
    rcases List.mem_map.mp hl with ⟨k, hk, rfl⟩
    exact ⟨rfl, rfl, rfl⟩

/-- C2: on the spec's two-row Email/Social dataset, the global KPI strings are
CTR `5.00%`, conversion rate `16.67%` and ROAS `5.75x`, and the per-channel
ROAS values are 5 for Email and 6 for Social. -/
theorem end_to_end_two_row_scenario :
    (calculate_kpis dfC2).ctrStr = "5.00%" ∧
    (calculate_kpis dfC2).conversionRateStr = "16.67%" ∧
    (calculate_kpis dfC2).roasStr = "5.75x" ∧
    (channel_metrics dfC2).map (fun c => (c.channel, c.roas))
      = [("Email", PyFloat.fin 5), ("Social", PyFloat.fin 6)] := by
  refine ⟨?_, ?_, ?_, ?_⟩
  · have hctr : (calculate_kpis_core dfC2).ctr = PyFloat.fin 5 := by
      norm_num [calculate_kpis_core, sumClicks, sumImpressions, dfC2, pyDiv, pyMul100]
    show fmtPyFloat2 (calculate_kpis_core dfC2).ctr ++ "%" = "5.00%"
    rw [hctr]
    show fmtFixed2 false 5 ++ "%" = "5.00%"
    rw [fmtFixed2_eval 5 500 (by norm_num [pyRound, ratFloor]; decide)]
    decide
  · have hcr : (calculate_kpis_core dfC2).conversion_rate = PyFloat.fin (50 / 3) := by
      norm_num [calculate_kpis_core, sumConversions, sumClicks, dfC2, pyDiv, pyMul100]
    show fmtPyFloat2 (calculate_kpis_core dfC2).conversion_rate ++ "%" = "16.67%"
    rw [hcr]
    show fmtFixed2 false (50 / 3) ++ "%" = "16.67%"
    rw [fmtFixed2_eval (50 / 3) 1667 (by norm_num [pyRound, ratFloor]; decide)]
    decide
  · have hroas : (calculate_kpis_core dfC2).roas = PyFloat.fin (23 / 4) := by
      norm_num [calculate_kpis_core, sumRevenue, sumSpend, dfC2, pyDiv]
    show fmtPyFloat2 (calculate_kpis_core dfC2).roas ++ "x" = "5.75x"
    rw [hroas]
    show fmtFixed2 false (23 / 4) ++ "x" = "5.75x"
    rw [fmtFixed2_eval (23 / 4) 575 (by norm_num [pyRound, ratFloor]; decide)]
    decide
  · have hk : groupKeys (fun a b => strLe a b = true) (dfC2.map Row.channel)
        = ["Email", "Social"] := by decide
    have hfE : dfC2.filter (fun r => r.channel = "Email")
        = [{ campaign := "Alpha", channel := "Email", startDate := ⟨2024, 3, 15⟩,
             endDate := ⟨2024, 3, 20⟩, ageGroup := "18-24", gender := "F",
             location := "NY", impressions := 1000, clicks := 50, conversions := 5,
             spend := 100, revenue := 500 }] := by
      simp [dfC2]
    have hfS : dfC2.filter (fun r => r.channel = "Social")
        = [{ campaign := "Beta", channel := "Social", startDate := ⟨2024, 4, 2⟩,
             endDate := ⟨2024, 4, 9⟩, ageGroup := "25-34", gender := "M",
             location := "LA", impressions := 2000, clicks := 100, conversions := 20,
             spend := 300, revenue := 1800 }] := by
      simp [dfC2]
    rw [channel_metrics, hk]
    simp only [List.map_cons, List.map_nil, hfE, hfS]
    norm_num [pyDiv]

/-- Counterexample to C6: on `dfC6` the grouped campaign conversion rate the
claim describes is 74%, but the code's campaign computation produces the
per-row rates 10% and 90% and nowhere the grouped value. -/
theorem campaign_rate_not_grouped_counterexample :
    campaignGroupedRateSpec dfC6 = [("A", PyFloat.fin 74)] ∧
    (campaign_metrics dfC6).map Prod.snd = [PyFloat.fin 10, PyFloat.fin 90] ∧
    PyFloat.fin 74 ∉ (campaign_metrics dfC6).map Prod.snd := by
  refine ⟨?_, ?_, ?_⟩
  · have hk : groupKeys (fun a b => strLe a b = true) (dfC6.map Row.campaign)
        = ["A"] := by decide
    rw [campaignGroupedRateSpec, hk]
    norm_num [dfC6, pyDiv, pyMul100]
  · norm_num [campaign_metrics, copyDf, dfC6, pyDiv, pyMul100]
  · norm_num [campaign_metrics, copyDf, dfC6, pyDiv, pyMul100]

/-- Counterexample to C7: on `dfC7` the channels appear in first-seen order
B, A, but `channel_metrics` lists the groups as A, B — sorted, not
first-seen. -/
theorem channel_keys_sorted_counterexample :
    firstSeen (dfC7.map Row.channel) = ["B", "A"] ∧
    (channel_metrics dfC7).map ChannelRow.channel = ["A", "B"] ∧
    ¬ (channel_metrics dfC7).map ChannelRow.channel
        = firstSeen (dfC7.map Row.channel) := by
  refine ⟨by decide, by decide, by decide⟩

/-- Counterexample to C8: two datasets that differ only in spend produce the
identical `age_metrics` output, so the age grouping does not aggregate the
spend measure (nor, a fortiori, all five measures). -/
theorem age_metrics_ignores_spend_counterexample :
    age_metrics dfC8a = age_metrics dfC8b ∧ ¬ sumSpend dfC8a = sumSpend dfC8b := by
  constructor
  · have hka : groupKeys (fun a b => strLe a b = true) (dfC8a.map Row.ageGroup)
        = ["18-24"] := by decide
    have hkb : groupKeys (fun a b => strLe a b = true) (dfC8b.map Row.ageGroup)
        = ["18-24"] := by decide
    rw [age_metrics, age_metrics, hka, hkb]
    norm_num [dfC8a, dfC8b]
  · norm_num [sumSpend, dfC8a, dfC8b]

/-- C9: every aggregation is a pure function of the dataset: the call leaves
the dataset as it was, and a second call on it returns the identical result. -/
theorem aggregations_pure_idempotent (df : List Row) :
    (calculate_kpisRun df).2 = df ∧
    (calculate_kpisRun ((calculate_kpisRun df).2)).1 = (calculate_kpisRun df).1 ∧
    (channel_metricsRun df).2 = df ∧
    (channel_metricsRun ((channel_metricsRun df).2)).1 = (channel_metricsRun df).1 ∧
    (campaign_metricsRun df).2 = df ∧
    (campaign_metricsRun ((campaign_metricsRun df).2)).1 = (campaign_metricsRun df).1 ∧
    (demographics_metricsRun df).2 = df ∧
    (demographics_metricsRun ((demographics_metricsRun df).2)).1
        = (demographics_metricsRun df).1 ∧
    (time_metricsRun df).2 = df ∧
    (time_metricsRun ((time_metricsRun df).2)).1 = (time_metricsRun df).1 :=
  ⟨rfl, rfl, rfl, rfl, rfl, rfl, rfl, rfl, rfl, rfl⟩

/-- C10: no aggregation mutates the loaded dataset — the derived columns of
the campaign and time tabs are written to copies — so after any sequence of
aggregation calls the dataset's rows are unchanged. -/
theorem dataset_unchanged_by_aggregation_calls (calls : List AggCall) (df : List Row) :
    runCallsPost calls df = df := by
  induction calls generalizing df with
  | nil => rfl
  | cons c t ih =>
    have h : runCallPost c df = df := by cases c <;> rfl
    show runCallsPost t (runCallPost c df) = df
    rw [h]
    exact ih df

end MarketingAnalysis
